import Mathlib

/-!
Shallow embedding of the taskflow-api orchestration core (Python sources under
src/backend/src and src/src) and proofs about the frozen claims.

Modelling conventions:
* Python dict-shaped rows become Lean structures; status fields stay `String`
  literals exactly as the source writes them.
* SQLite tables become Lean lists threaded through a `Db` record; every repo
  method that executes one SQL statement becomes one pure function on `Db`.
* `uuid.uuid4()` and `utc_now_iso()` are nondeterministic effects; they are
  modelled by a monotone counter `Db.tick` (fresh ids are `uuid-<k>`,
  timestamps are the `Nat` value of the counter).
* Floats (`total_usd`, rates) are modelled as `ℚ`; Python `round(x, 8)` is
  modelled by half-up rounding at 8 decimals over `ℚ`.
* `asyncio` scheduling, sleeps and locks are not modelled; within one run the
  loop is strictly sequential in the source as well.
-/

namespace Taskflow

/-- Exact rational product, spelled with `Rat.divInt` so that concrete values
reduce in the kernel (the library's `Rat.mul` is irreducible by design). -/
def qmul (a b : ℚ) : ℚ :=
  Rat.divInt (a.num * b.num) ((a.den : Int) * (b.den : Int))

/-- Exact rational sum, spelled with `Rat.divInt` (see `qmul`). -/
def qadd (a b : ℚ) : ℚ :=
  Rat.divInt (a.num * (b.den : Int) + b.num * (a.den : Int))
    ((a.den : Int) * (b.den : Int))

/-- Values stored under the `details` key of a structured error. -/
inductive DetailVal where
  | s : String → DetailVal
  | n : Nat → DetailVal
  | l : List String → DetailVal
  deriving DecidableEq

/-- Structured error `{code, message, details}` as produced by the executor
and orchestrator (db/models.py `StructuredError`). -/
structure ErrObj where
  code : String
  message : String
  details : List (String × DetailVal)
  deriving DecidableEq

/-- The executor's step output `{summary, confidence, artifacts}`
(executor/service.py lines 120-128). -/
structure StepOutput where
  summary : String
  confidence : ℚ
  artifacts : List (String × String)
  deriving DecidableEq

/-- Cost payload recorded on completed steps (executor/service.py 147-154). -/
structure CostPayload where
  provider : String
  model : String
  prompt_tokens : Nat
  completion_tokens : Nat
  total_tokens : Nat
  usd : ℚ
  deriving DecidableEq

/-- A DAG node as stored in the run's dag snapshot. -/
structure Node where
  id : String
  name : String
  description : String
  depends_on : List String
  status : String
  last_output : Option StepOutput
  last_error : Option ErrObj
  deriving DecidableEq

/-- A DAG edge `{source, target}`. -/
structure Edge where
  source : String
  target : String
  deriving DecidableEq

/-- A per-node contract dict; every field is optional because the Python code
reads each key with `.get(key, default)`. -/
structure Contract where
  allowed_tools : Option (List String) := none
  timeout_s : Option Nat := none
  max_retries : Option Nat := none
  model_preference : Option String := none
  deriving DecidableEq

/-- The dag snapshot embedded in a run: nodes, edges, contracts mapping, and
the free-text planner notes attached by the planner. -/
structure Dag where
  nodes : List Node
  edges : List Edge
  contracts : List (String × Contract)
  planner_notes : Option String := none
  deriving DecidableEq

/-- `dag.get("contracts", {}).get(node_id, {})`. -/
def Dag.getContract (dag : Dag) (node_id : String) : Contract :=
  match dag.contracts.find? (fun p => p.fst == node_id) with
  | some p => p.snd
  | none => {}

/-- The step input snapshot `{task, node, request_id?}`; the retry path's
upsert omits `request_id` (executor/service.py 295-298), modelled as `none`. -/
structure StepInput where
  task : String
  node : Node
  request_id : Option String
  deriving DecidableEq

/-- A row of the `steps` table. -/
structure StepRow where
  id : String
  run_id : String
  node_id : String
  status : String
  attempts : Nat
  max_retries : Nat
  started_at : Option Nat
  ended_at : Option Nat
  input : StepInput
  output : Option StepOutput
  error : Option ErrObj
  cost : Option CostPayload
  logs : List String
  deriving DecidableEq

/-- A reflection diagnostic `{reason, failure_mode, action_taken}`. -/
structure Diagnostic where
  reason : String
  failure_mode : String
  action_taken : String
  deriving DecidableEq

/-- A row of the `runs` table (decoded form, as `Repository._decode_run`
returns it: JSON columns decoded, `cancel_requested` as Bool). -/
structure RunRow where
  id : String
  task : String
  template_id : Option String
  status : String
  dag : Dag
  diagnostics : List Diagnostic
  started_at : Option Nat
  ended_at : Option Nat
  total_prompt_tokens : Nat
  total_completion_tokens : Nat
  total_tokens : Nat
  total_usd : ℚ
  cancel_requested : Bool
  deriving DecidableEq

/-- JSON-ish payload values appearing in event payloads. -/
inductive JVal where
  | s : String → JVal
  | n : Nat → JVal
  | q : ℚ → JVal
  | b : Bool → JVal
  | e : ErrObj → JVal
  | cost : CostPayload → JVal
  | null : JVal
  deriving DecidableEq

/-- A row of the `events` table / broker event dict. -/
structure Event where
  id : String
  run_id : String
  step_id : Option String
  event_type : String
  payload : List (String × JVal)
  created_at : Nat
  deriving DecidableEq

/-- A row of the `cost_ledger` table. -/
structure CostEntry where
  id : String
  run_id : String
  step_id : Option String
  app : String
  provider : String
  model : String
  prompt_tokens : Nat
  completion_tokens : Nat
  total_tokens : Nat
  usd : ℚ
  created_at : Nat
  deriving DecidableEq

/-- A row of the `workflow_templates` table (decoded form). -/
structure Template where
  id : String
  name : String
  version : String
  description : String
  graph : Dag
  contracts : List (String × Contract)
  updated_at : Nat
  deriving DecidableEq

/-- The durable store plus the fresh-id/timestamp counter. -/
structure Db where
  runs : List RunRow
  steps : List StepRow
  events : List Event
  cost_ledger : List CostEntry
  templates : List Template := []
  tick : Nat := 0
  deriving DecidableEq

/-- Draw a fresh counter value (models `uuid.uuid4()` / `utc_now_iso()`). -/
def Db.fresh (db : Db) : Nat × Db :=
  (db.tick, { db with tick := db.tick + 1 })

namespace Repository

/-- `SELECT * FROM runs WHERE id = ?` (repo.py `get_run`). -/
def getRun (db : Db) (run_id : String) : Option RunRow :=
  db.runs.find? (fun r => r.id == run_id)

/-- `UPDATE runs SET ... WHERE id = ?` (repo.py `update_run`); the named
column assignments of each call site are passed as the update function. -/
def updateRun (db : Db) (run_id : String) (f : RunRow → RunRow) : Db :=
  { db with runs := db.runs.map (fun r => if r.id == run_id then f r else r) }

/-- repo.py `increment_run_totals`: one atomic additive UPDATE. -/
def incrementRunTotals (db : Db) (run_id : String)
    (prompt_tokens completion_tokens total_tokens : Nat) (usd : ℚ) : Db :=
  updateRun db run_id (fun r =>
    { r with
      total_prompt_tokens := r.total_prompt_tokens + prompt_tokens
      total_completion_tokens := r.total_completion_tokens + completion_tokens
      total_tokens := r.total_tokens + total_tokens
      total_usd := qadd r.total_usd usd })

/-- repo.py `create_run`: INSERT with status created; the totals columns take
their SQL defaults 0 (db/models.py SCHEMA_SQL). -/
def createRun (db : Db) (run_id : String) (task : String)
    (template_id : Option String) : Db :=
  let row : RunRow :=
    { id := run_id, task := task, template_id := template_id
      status := "created", dag := { nodes := [], edges := [], contracts := [] }
      diagnostics := [], started_at := none, ended_at := none
      total_prompt_tokens := 0, total_completion_tokens := 0
      total_tokens := 0, total_usd := 0, cancel_requested := false }
  { db with runs := db.runs ++ [row] }

/-- repo.py `upsert_step`: INSERT ... ON CONFLICT(run_id, node_id) DO UPDATE.
A conflicting row is replaced wholesale (every column is set from excluded). -/
def upsertStep (db : Db) (payload : StepRow) : Db :=
  { db with steps :=
      if db.steps.any (fun s => s.run_id == payload.run_id && s.node_id == payload.node_id) then
        db.steps.map (fun s =>
          if s.run_id == payload.run_id && s.node_id == payload.node_id then payload else s)
      else
        db.steps ++ [payload] }

/-- repo.py `get_step`. -/
def getStep (db : Db) (step_id : String) : Option StepRow :=
  db.steps.find? (fun s => s.id == step_id)

/-- repo.py `get_step_by_node`. -/
def getStepByNode (db : Db) (run_id node_id : String) : Option StepRow :=
  db.steps.find? (fun s => s.run_id == run_id && s.node_id == node_id)

/-- repo.py `list_steps` (the ORDER BY started_at is irrelevant to every use
modelled here, which applies independent per-row updates). -/
def listSteps (db : Db) (run_id : String) : List StepRow :=
  db.steps.filter (fun s => s.run_id == run_id)

/-- repo.py `reset_step`: UPDATE steps SET status=pending, attempts=0,
started_at/ended_at/output/error/cost NULL WHERE run_id=? AND id=?;
returns rowcount > 0. -/
def resetStep (db : Db) (run_id step_id : String) : Bool × Db :=
  let hit := db.steps.any (fun s => s.run_id == run_id && s.id == step_id)
  (hit,
    { db with steps := db.steps.map (fun s =>
        if s.run_id == run_id && s.id == step_id then
          { s with status := "pending", attempts := 0, started_at := none
                   ended_at := none, output := none, error := none, cost := none }
        else s) })

/-- repo.py `reset_failed_steps`: UPDATE steps SET status=pending,
started_at/ended_at/output/error/cost NULL WHERE run_id=? AND status=failed.
Note: unlike `reset_step`, the statement does not touch `attempts`. -/
def resetFailedSteps (db : Db) (run_id : String) : Nat × Db :=
  let count := (db.steps.filter (fun s => s.run_id == run_id && s.status == "failed")).length
  (count,
    { db with steps := db.steps.map (fun s =>
        if s.run_id == run_id && s.status == "failed" then
          { s with status := "pending", started_at := none, ended_at := none
                   output := none, error := none, cost := none }
        else s) })

/-- repo.py `create_event`: builds the event dict (fresh id, now) and INSERTs
it; returns the event. -/
def createEvent (db : Db) (run_id : String) (event_type : String)
    (payload : List (String × JVal)) (step_id : Option String) : Event × Db :=
  let (k, db) := db.fresh
  let ev : Event :=
    { id := "uuid-" ++ toString k, run_id := run_id, step_id := step_id
      event_type := event_type, payload := payload, created_at := k }
  (ev, { db with events := db.events ++ [ev] })

/-- repo.py `create_cost_entry`. -/
def createCostEntry (db : Db) (run_id : String) (step_id : Option String)
    (app provider model : String) (prompt_tokens completion_tokens total_tokens : Nat)
    (usd : ℚ) : Db :=
  let (k, db) := db.fresh
  let row : CostEntry :=
    { id := "uuid-" ++ toString k, run_id := run_id, step_id := step_id
      app := app, provider := provider, model := model
      prompt_tokens := prompt_tokens, completion_tokens := completion_tokens
      total_tokens := total_tokens, usd := usd, created_at := k }
  { db with cost_ledger := db.cost_ledger ++ [row] }

/-- repo.py `get_workflow_template`. -/
def getWorkflowTemplate (db : Db) (template_id : String) : Option Template :=
  db.templates.find? (fun t => t.id == template_id)

/-- repo.py `list_workflow_templates`: ORDER BY updated_at DESC. -/
def listWorkflowTemplates (db : Db) : List Template :=
  db.templates.mergeSort (fun a b => b.updated_at ≤ a.updated_at)

/-- repo.py `append_run_diagnostic`: read-modify-write of diagnostics. -/
def appendRunDiagnostic (db : Db) (run_id : String) (d : Diagnostic) : Db :=
  match getRun db run_id with
  | none => db
  | some _ => updateRun db run_id (fun r => { r with diagnostics := r.diagnostics ++ [d] })

end Repository

/-- Configuration fields read by the router and cost estimator
(core/settings.py). -/
structure Settings where
  llm_cheap_model : String := "mock-cheap"
  llm_default_model : String := "mock-default"
  llm_expensive_model : String := "mock-expensive"
  llm_cheap_prompt_per_1k : ℚ := mkRat 1 10000
  llm_cheap_completion_per_1k : ℚ := mkRat 2 10000
  llm_default_prompt_per_1k : ℚ := mkRat 5 10000
  llm_default_completion_per_1k : ℚ := mkRat 1 1000
  llm_expensive_prompt_per_1k : ℚ := mkRat 2 1000
  llm_expensive_completion_per_1k : ℚ := mkRat 4 1000
  cost_ledger_app : String := "taskflow-api"
  deriving DecidableEq

/-- Floor of a rational as an integer (kernel-computable). -/
def ratFloorZ (x : ℚ) : Int :=
  Int.fdiv x.num (x.den : Int)

/-- Python `round(x, 8)` modelled over ℚ (half-up at 8 decimals). -/
def round8 (x : ℚ) : ℚ :=
  Rat.divInt (ratFloorZ (qadd (qmul x 100000000) (mkRat 1 2))) 100000000

/-- core/llm/cost.py `CostEstimate`. -/
structure CostEstimate where
  prompt_tokens : Nat
  completion_tokens : Nat
  total_tokens : Nat
  usd : ℚ
  deriving DecidableEq

namespace CostEstimator

/-- core/llm/cost.py `_rates_for_model`. -/
def ratesForModel (st : Settings) (model : String) : ℚ × ℚ :=
  if model == st.llm_cheap_model then
    (st.llm_cheap_prompt_per_1k, st.llm_cheap_completion_per_1k)
  else if model == st.llm_expensive_model then
    (st.llm_expensive_prompt_per_1k, st.llm_expensive_completion_per_1k)
  else
    (st.llm_default_prompt_per_1k, st.llm_default_completion_per_1k)

/-- core/llm/cost.py `estimate`. -/
def estimate (st : Settings) (model : String)
    (prompt_tokens completion_tokens : Nat) : CostEstimate :=
  let rates := ratesForModel st model
  let usd := qadd (qmul (Rat.divInt (prompt_tokens : Int) 1000) rates.fst)
    (qmul (Rat.divInt (completion_tokens : Int) 1000) rates.snd)
  { prompt_tokens := prompt_tokens
    completion_tokens := completion_tokens
    total_tokens := prompt_tokens + completion_tokens
    usd := round8 usd }

end CostEstimator

/-- core/llm/router.py `WorkloadType`. -/
inductive WorkloadType where
  | planner
  | executor
  | reflection
  | synthesis
  deriving DecidableEq

namespace ModelRouter

/-- core/llm/router.py `for_workload`. -/
def forWorkload (st : Settings) (w : WorkloadType) : String :=
  match w with
  | .planner => st.llm_cheap_model
  | .reflection => st.llm_expensive_model
  | .synthesis => st.llm_expensive_model
  | .executor => st.llm_default_model

/-- core/llm/router.py `for_step`. -/
def forStep (st : Settings) (model_pref : Option String) (fallback : WorkloadType) : String :=
  if model_pref == some "cheap" then st.llm_cheap_model
  else if model_pref == some "expensive" then st.llm_expensive_model
  else if model_pref == some "default" then st.llm_default_model
  else forWorkload st fallback

end ModelRouter

/-- Resolved run constraints as built by `TaskflowOrchestrator._run_loop`
(runtime.py 160-173): every key is present, missing run constraints fall back
to the configured defaults there. -/
structure StateConstraints where
  budget_usd : ℚ
  timeout_s : Int
  max_steps : Nat
  reflection_interval_steps : Nat
  deriving DecidableEq

/-- The in-memory per-run state dict constructed in runtime.py 156-186 and
threaded through plan / execute / monitor / reflect / finish. -/
structure OrchState where
  run_id : String
  task : String
  constraints : StateConstraints
  dag : Dag
  step_counter : Nat
  progress_made : Bool
  reflection_needed : Bool
  reflection_reason : Option String
  reflection_model_preference : Option String
  failure_mode : Option String
  should_finish : Bool
  finish_status : Option String
  finish_reason : Option String
  deriving DecidableEq

/-- Python `a or b` for an optional string: `None` and `""` are falsy. -/
def strOr (a : Option String) (b : String) : String :=
  match a with
  | some s => if s == "" then b else s
  | none => b

/-- Lookup in the dict comprehension built from the node list
(`node_map = dict-of id to node`): a later duplicate id overwrites an earlier
one, so the lookup returns the last occurrence. -/
def nodeMapGet (nodes : List Node) (i : String) : Option Node :=
  nodes.reverse.find? (fun n => n.id == i)

/-- `node_map.get(dep, dict()).get("status") == "completed"`: a missing id
yields the empty dict, whose status is not completed. -/
def depCompleted (nodes : List Node) (dep : String) : Bool :=
  match nodeMapGet nodes dep with
  | some n => n.status == "completed"
  | none => false

/-- The runnable predicate shared by executor selection and the monitor:
pending and every listed dependency completed. -/
def isRunnable (nodes : List Node) (n : Node) : Bool :=
  n.status == "pending" && n.depends_on.all (fun d => depCompleted nodes d)

/-- core/llm/provider.py `LLMResponse`: the provider's reply. The provider is
an external collaborator, so responses enter the embedding as inputs. -/
structure LLMResponse where
  provider : String
  model : String
  content : String
  prompt_tokens : Nat
  completion_tokens : Nat
  deriving DecidableEq

namespace PlannerService

/-- planner/service.py `plan`: idempotent when the dag already has nodes;
otherwise select the template (run.template_id first, else newest by
updated_at, else fail), charge the planning model call, instantiate the dag
from the template with every node pending, persist it, and emit events.
`RuntimeError` on a missing template becomes `Except.error`. -/
def plan (st : Settings) (llm : LLMResponse) (run : RunRow) (db : Db) :
    Except String Dag × Db :=
  if !run.dag.nodes.isEmpty then (.ok run.dag, db)
  else
    let (_, db) := Repository.createEvent db run.id "planning_started"
      [("task", .s run.task),
       ("template_id", match run.template_id with | some t => .s t | none => .null)] none
    let template : Option Template :=
      match run.template_id with
      | some tid =>
        match Repository.getWorkflowTemplate db tid with
        | some t => some t
        | none => (Repository.listWorkflowTemplates db).head?
      | none => (Repository.listWorkflowTemplates db).head?
    match template with
    | none => (.error "No workflow template available", db)
    | some template =>
      let planner_model := ModelRouter.forWorkload st .planner
      let cost := CostEstimator.estimate st planner_model
        llm.prompt_tokens llm.completion_tokens
      let db := Repository.createCostEntry db run.id none st.cost_ledger_app
        llm.provider llm.model cost.prompt_tokens cost.completion_tokens
        cost.total_tokens cost.usd
      let db := Repository.incrementRunTotals db run.id cost.prompt_tokens
        cost.completion_tokens cost.total_tokens cost.usd
      let dag : Dag :=
        { nodes := template.graph.nodes.map (fun n =>
            { n with status := "pending", last_output := none, last_error := none })
          edges := template.graph.edges
          contracts := template.contracts
          planner_notes := some llm.content }
      let db := Repository.updateRun db run.id (fun r => { r with dag := dag })
      let (_, db) := Repository.createEvent db run.id "planning_finished"
        [("node_count", .n dag.nodes.length), ("edge_count", .n dag.edges.length),
         ("model", .s llm.model)] none
      (.ok dag, db)

end PlannerService

namespace ExecutorService

/-- executor/service.py `_next_runnable_node`: scan nodes in declaration
order, return the first pending node whose dependencies are all completed.
The auxiliary recursion keeps the full list for the `node_map` lookups. -/
def nextRunnableAux (all : List Node) : List Node → Option Node
  | [] => none
  | n :: rest => if isRunnable all n then some n else nextRunnableAux all rest

/-- executor/service.py `_next_runnable_node` (entry point). -/
def nextRunnableNode (nodes : List Node) : Option Node :=
  nextRunnableAux nodes nodes

/-- executor/service.py `_map_failure_mode`. -/
def mapFailureMode (code : String) : String :=
  if code == "timeout" then "timeout"
  else if code == "schema_error" then "schema_error"
  else "other"

/-- Update the dag node with the given id in place (the Python code mutates
the node dict aliased from `dag["nodes"]`). -/
def updateDagNode (dag : Dag) (node_id : String) (f : Node → Node) : Dag :=
  { dag with nodes := dag.nodes.map (fun n => if n.id == node_id then f n else n) }

/-- executor/service.py `_handle_step_error`: records the attempt outcome,
either scheduling a retry (attempts still within max_retries) or failing the
step and requesting reflection. `node` is the node dict the caller aliased
out of the dag; `asyncio.sleep(backoff_s)` is a pure no-op here. -/
def handleStepError (state : OrchState) (db : Db) (step_id : String)
    (node : Node) (attempts max_retries : Nat) (started_at : Option Nat)
    (error : ErrObj) : OrchState × Db :=
  let node_id := node.id
  let (ended_at, db) := db.fresh
  let state := { state with step_counter := state.step_counter + 1 }
  if attempts ≤ max_retries then
    let backoff_s := min (2 ^ (attempts - 1)) 8
    let node := { node with status := "pending", last_error := some error }
    let state := { state with dag := updateDagNode state.dag node_id (fun n =>
      { n with status := "pending", last_error := some error }) }
    let db := Repository.upsertStep db
      { id := step_id, run_id := state.run_id, node_id := node_id
        status := "pending", attempts := attempts, max_retries := max_retries
        started_at := started_at, ended_at := some ended_at
        input := { task := state.task, node := node, request_id := none }
        output := none, error := some error, cost := none, logs := [] }
    let db := Repository.updateRun db state.run_id (fun r => { r with dag := state.dag })
    let (_, db) := Repository.createEvent db state.run_id "step_retry_scheduled"
      [("node_id", .s node_id), ("attempt", .n attempts),
       ("max_retries", .n max_retries), ("backoff_s", .n backoff_s),
       ("error", .e error)] (some step_id)
    (state, db)
  else
    let node := { node with status := "failed", last_error := some error }
    let state := { state with dag := updateDagNode state.dag node_id (fun n =>
      { n with status := "failed", last_error := some error }) }
    let db := Repository.upsertStep db
      { id := step_id, run_id := state.run_id, node_id := node_id
        status := "failed", attempts := attempts, max_retries := max_retries
        started_at := started_at, ended_at := some ended_at
        input := { task := state.task, node := node, request_id := none }
        output := none, error := some error, cost := none, logs := [] }
    let db := Repository.updateRun db state.run_id (fun r => { r with dag := state.dag })
    let state := { state with
      reflection_needed := true
      reflection_reason := some ("Step " ++ node_id ++ " failed")
      failure_mode := some (mapFailureMode error.code) }
    let (_, db) := Repository.createEvent db state.run_id "step_failed"
      [("node_id", .s node_id), ("error", .e error)] (some step_id)
    (state, db)

/-- The provider call outcome observed by `execute_next` through
`asyncio.wait_for(self._llm_provider.generate(...))`: either a response,
an `asyncio.TimeoutError`, or any other exception (wrapped as
execution_error). -/
inductive LLMOutcome where
  | ok : LLMResponse → LLMOutcome
  | timeoutExc : String → LLMOutcome
  | exc : String → LLMOutcome
  deriving DecidableEq

/-- contracts/registry.py `OUTPUT_MODEL_REGISTRY` / `get_output_model`. -/
inductive OutputModel where
  | plannerModel
  | executorModel
  | generic
  deriving DecidableEq

/-- contracts/registry.py `get_output_model`. -/
def getOutputModel (node_id : String) : OutputModel :=
  if node_id == "understand_task" then .plannerModel
  else if node_id == "execute_task" then .executorModel
  else if node_id == "synthesize_results" then .generic
  else .generic

/-- contracts/models.py `validate_output_with_contract`: Planner and Executor
outputs subclass GenericStepOutput without adding fields, so all three models
require summary : str (by construction), confidence in the interval 0..1, and
artifacts a map (by construction). -/
def validateOutput (_m : OutputModel) (o : StepOutput) : Bool :=
  decide (0 ≤ o.confidence ∧ o.confidence ≤ 1)

/-- executor/service.py `execute_next`: one executor tick. -/
def executeNext (st : Settings) (llm : LLMOutcome) (request_id : String)
    (state : OrchState) (db : Db) : OrchState × Db :=
  match nextRunnableNode state.dag.nodes with
  | none => ({ state with progress_made := false }, db)
  | some node0 =>
    let state := { state with progress_made := true }
    let node_id := node0.id
    let contract := state.dag.getContract node_id
    let existing_step := Repository.getStepByNode db state.run_id node_id
    let (step_id, db) :=
      match existing_step with
      | some s2 => (s2.id, db)
      | none => let (k, db) := db.fresh; ("uuid-" ++ toString k, db)
    let attempts :=
      match existing_step with
      | some s2 => s2.attempts + 1
      | none => 1
    let max_retries := contract.max_retries.getD 2
    let (started_at, db) := db.fresh
    let node := { node0 with status := "running" }
    let state := { state with dag := updateDagNode state.dag node_id (fun n =>
      { n with status := "running" }) }
    let db := Repository.updateRun db state.run_id (fun r => { r with dag := state.dag })
    let stepInput : StepInput :=
      { task := state.task, node := node, request_id := some request_id }
    let db := Repository.upsertStep db
      { id := step_id, run_id := state.run_id, node_id := node_id
        status := "running", attempts := attempts, max_retries := max_retries
        started_at := some started_at, ended_at := none
        input := stepInput, output := none, error := none, cost := none, logs := [] }
    let (_, db) := Repository.createEvent db state.run_id "step_started"
      [("node_id", .s node_id), ("attempt", .n attempts)] (some step_id)
    let allowed_tools := contract.allowed_tools.getD ["llm.generate"]
    if !(allowed_tools.contains "llm.generate") then
      handleStepError state db step_id node attempts max_retries (some started_at)
        { code := "tool_not_allowed"
          message := "Contract does not allow llm.generate"
          details := [("allowed_tools", .l allowed_tools)] }
    else
      let model_pref := strOr state.reflection_model_preference
        (contract.model_preference.getD "default")
      let model := ModelRouter.forStep st (some model_pref) .executor
      match llm with
      | .timeoutExc msg =>
        handleStepError state db step_id node attempts max_retries (some started_at)
          { code := "timeout", message := "Step execution timed out"
            details := [("timeout_s", .n (contract.timeout_s.getD 30)),
                        ("raw_error", .s msg)] }
      | .exc msg =>
        handleStepError state db step_id node attempts max_retries (some started_at)
          { code := "execution_error", message := "Unhandled execution error"
            details := [("raw_error", .s msg)] }
      | .ok resp =>
        let output : StepOutput :=
          { summary := resp.content
            confidence := if model_pref == "expensive" then mkRat 85 100 else mkRat 7 10
            artifacts := [("model", resp.model), ("provider", resp.provider),
                          ("node_id", node_id)] }
        let output_model := getOutputModel node_id
        if !(validateOutput output_model output) then
          handleStepError state db step_id node attempts max_retries (some started_at)
            { code := "schema_error", message := "Step output schema validation failed"
              details := [("validation_error", .s "validation failed")] }
        else
          let (ended_at, db) := db.fresh
          let cost := CostEstimator.estimate st model resp.prompt_tokens resp.completion_tokens
          let cost_payload : CostPayload :=
            { provider := resp.provider, model := model
              prompt_tokens := cost.prompt_tokens
              completion_tokens := cost.completion_tokens
              total_tokens := cost.total_tokens, usd := cost.usd }
          let db := Repository.upsertStep db
            { id := step_id, run_id := state.run_id, node_id := node_id
              status := "completed", attempts := attempts, max_retries := max_retries
              started_at := some started_at, ended_at := some ended_at
              input := stepInput, output := some output, error := none
              cost := some cost_payload, logs := [] }
          let db := Repository.createCostEntry db state.run_id (some step_id)
            st.cost_ledger_app resp.provider model cost.prompt_tokens
            cost.completion_tokens cost.total_tokens cost.usd
          let db := Repository.incrementRunTotals db state.run_id
            cost.prompt_tokens cost.completion_tokens cost.total_tokens cost.usd
          let state := { state with dag := updateDagNode state.dag node_id (fun n =>
            { n with status := "completed", last_output := some output,
                     last_error := none }) }
          let db := Repository.updateRun db state.run_id (fun r => { r with dag := state.dag })
          let state := { state with step_counter := state.step_counter + 1 }
          let (_, db) := Repository.createEvent db state.run_id "step_finished"
            [("node_id", .s node_id), ("cost", .cost cost_payload)] (some step_id)
          (state, db)

end ExecutorService

namespace MonitorService

/-- monitor/service.py `_has_runnable_nodes`. -/
def hasRunnableNodes (nodes : List Node) : Bool :=
  nodes.any (fun n => isRunnable nodes n)

/-- monitor/service.py `evaluate`: a pure cascade over the state and a fresh
run row; `elapsed = int(time.monotonic() - state["run_started_monotonic"])`
enters as a parameter. -/
def evaluate (run : Option RunRow) (elapsed : Int) (state : OrchState) : OrchState :=
  match run with
  | none =>
    { state with should_finish := true, finish_status := some "failed"
                 finish_reason := some "run_missing" }
  | some run =>
    let statuses := state.dag.nodes.map (·.status)
    if run.cancel_requested then
      { state with should_finish := true, finish_status := some "canceled"
                   finish_reason := some "cancel_requested" }
    else if state.constraints.timeout_s ≤ elapsed then
      { state with should_finish := true, finish_status := some "failed"
                   finish_reason := some "timeout", reflection_needed := true
                   reflection_reason := some "Run timeout exceeded"
                   failure_mode := some "timeout" }
    else if state.constraints.budget_usd ≤ run.total_usd then
      { state with should_finish := true, finish_status := some "failed"
                   finish_reason := some "budget_exceeded", reflection_needed := true
                   reflection_reason := some "Budget cap exceeded"
                   failure_mode := some "budget_risk" }
    else if statuses.all (fun s => s == "completed" || s == "skipped") && !statuses.isEmpty then
      { state with should_finish := true, finish_status := some "completed"
                   finish_reason := some "all_steps_completed" }
    else if !(hasRunnableNodes state.dag.nodes)
        && (statuses.any (fun s => s == "pending"))
        && !(statuses.any (fun s => s == "running")) then
      { state with should_finish := true, finish_status := some "failed"
                   finish_reason := some "dependency_deadlock", reflection_needed := true
                   reflection_reason := some "No runnable steps due to unmet dependencies"
                   failure_mode := some (strOr state.failure_mode "other") }
    else if !(statuses.any (fun s => s == "pending" || s == "running"))
        && (statuses.any (fun s => s == "failed")) then
      { state with should_finish := true, finish_status := some "failed"
                   finish_reason := some "steps_failed", reflection_needed := true
                   reflection_reason := some "One or more steps failed"
                   failure_mode := some (strOr state.failure_mode "other") }
    else if state.constraints.max_steps ≤ state.step_counter then
      { state with should_finish := true, finish_status := some "failed"
                   finish_reason := some "max_steps_exceeded", reflection_needed := true
                   reflection_reason := some "Max steps exceeded"
                   failure_mode := some "other" }
    else if 0 < state.step_counter
        && state.step_counter % state.constraints.reflection_interval_steps == 0
        && state.progress_made then
      { state with reflection_needed := true
                   reflection_reason := some "Periodic reflection boundary reached"
                   failure_mode := some (strOr state.failure_mode "low_confidence")
                   progress_made := false }
    else state

end MonitorService

namespace ReflectionService

/-- reflection/service.py `_decide_action`. -/
def decideAction (failure_mode : String) : String :=
  if failure_mode == "timeout" || failure_mode == "budget_risk" then "terminated"
  else if failure_mode == "schema_error" then "replanned"
  else if failure_mode == "low_confidence" then "adjusted_parameters"
  else "terminated"

/-- One closure step of the forward BFS over edges: add every target reachable
in one hop from the seen set. -/
def bfsStep (edges : List Edge) (seen : List String) : List String :=
  seen ++ ((edges.filter (fun e =>
    seen.contains e.source && !(seen.contains e.target))).map (·.target)).eraseDups

/-- reflection/service.py `_skip_failed_descendants` BFS, realized as bounded
closure iteration (each round adds at least one node or reaches the fixpoint,
so `edges.length + 1` rounds reach the same reachable set as the queue BFS). -/
def bfsReachable (edges : List Edge) (seen : List String) : Nat → List String
  | 0 => seen
  | fuel + 1 =>
    let next := bfsStep edges seen
    if next.length == seen.length then seen else bfsReachable edges next fuel

/-- reflection/service.py `_skip_failed_descendants`. -/
def skipFailedDescendants (state : OrchState) : OrchState :=
  let nodes := state.dag.nodes
  let failed_ids := (nodes.filter (fun n => n.status == "failed")).map (·.id)
  if failed_ids.isEmpty then state
  else
    let seen := bfsReachable state.dag.edges failed_ids (state.dag.edges.length + 1)
    let upstream := failed_ids.mergeSort (fun a b => a ≤ b)
    { state with dag := { state.dag with nodes := nodes.map (fun n =>
        if seen.contains n.id && n.status == "pending" then
          { n with status := "skipped"
                   last_error := some
                     { code := "execution_error"
                       message := "Skipped due to upstream failure during replanning"
                       details := [("upstream", .l upstream)] } }
        else n) } }

/-- reflection/service.py `reflect`. -/
def reflect (state : OrchState) (db : Db) : OrchState × Db :=
  if !state.reflection_needed then (state, db)
  else
    let reason := strOr state.reflection_reason "Reflection requested"
    let failure_mode := strOr state.failure_mode "other"
    let action := decideAction failure_mode
    let (state, db) :=
      if action == "replanned" then
        let state := skipFailedDescendants state
        let (_, db) := Repository.createEvent db state.run_id "replanned"
          [("reason", .s reason), ("failure_mode", .s failure_mode)] none
        (state, db)
      else if action == "adjusted_parameters" then
        ({ state with reflection_model_preference := some "expensive" }, db)
      else
        let state := { state with should_finish := true }
        let state :=
          if state.finish_status != some "failed" && state.finish_status != some "canceled" then
            { state with finish_status := some "failed"
                         finish_reason := some "reflection_terminated" }
          else state
        (state, db)
    let diagnostic : Diagnostic :=
      { reason := reason, failure_mode := failure_mode, action_taken := action }
    let db := Repository.appendRunDiagnostic db state.run_id diagnostic
    let (_, db) := Repository.createEvent db state.run_id "reflection"
      [("reason", .s reason), ("failure_mode", .s failure_mode),
       ("action_taken", .s action)] none
    let state := { state with reflection_needed := false
                              reflection_reason := none
                              failure_mode := none }
    (state, db)

end ReflectionService

namespace TaskflowOrchestrator

/-- runtime.py `_route_after_monitor`. -/
def routeAfterMonitor (state : OrchState) : String :=
  if state.should_finish then "finish"
  else if state.reflection_needed then "reflect"
  else "execute_step"

/-- The canceled-by-human structured error written by `_finish_node` /
`_mark_open_steps_canceled`. -/
def canceledErr : ErrObj :=
  { code := "canceled", message := "Canceled by human override", details := [] }

/-- The loop body of `_mark_open_steps_canceled` (runtime.py 333-356): skip
settled steps, upsert an open step as canceled with a fresh ended_at. -/
def cancelOpenStep (db : Db) (step : StepRow) : Db :=
  if step.status == "pending" || step.status == "running" then
    let (t, db) := db.fresh
    Repository.upsertStep db
      { step with status := "canceled", ended_at := some t, error := some canceledErr }
  else db

/-- runtime.py `_mark_open_steps_canceled`: cancel every pending/running dag
node and upsert every pending/running step row of the run to canceled. -/
def markOpenStepsCanceled (state : OrchState) (db : Db) : OrchState × Db :=
  let state := { state with dag := { state.dag with nodes := state.dag.nodes.map (fun n =>
    if n.status == "pending" || n.status == "running" then
      { n with status := "canceled", last_error := some canceledErr }
    else n) } }
  let db := (Repository.listSteps db state.run_id).foldl cancelOpenStep db
  (state, db)

/-- runtime.py `_finish_node`: write the terminal status, cancel open steps if
the run is being canceled, and emit `run_finished`. -/
def finishNode (state : OrchState) (db : Db) : OrchState × Db :=
  let status := strOr state.finish_status "failed"
  let reason := strOr state.finish_reason "unknown"
  let (state, db) :=
    if status == "canceled" then markOpenStepsCanceled state db else (state, db)
  let (t, db) := db.fresh
  let db := Repository.updateRun db state.run_id (fun r =>
    { r with status := status, ended_at := some t, cancel_requested := false
             dag := state.dag })
  let (_, db) := Repository.createEvent db state.run_id "run_finished"
    [("status", .s status), ("reason", .s reason)] none
  (state, db)

/-- runtime.py `_reset_failed_nodes`. -/
def resetFailedNodes (dag : Dag) : Dag :=
  { dag with nodes := dag.nodes.map (fun n =>
    if n.status == "failed" then
      { n with status := "pending", last_error := none, last_output := none }
    else n) }

/-- runtime.py `_reset_node_for_step_retry`. -/
def resetNodeForStepRetry (db : Db) (dag : Dag) (step_id : String) : Dag :=
  match Repository.getStep db step_id with
  | none => dag
  | some step =>
    { dag with nodes := dag.nodes.map (fun n =>
        if n.id == step.node_id then
          { n with status := "pending", last_error := none, last_output := none }
        else n) }

/-- runtime.py `retry_run`: reset the named step (or all failed steps) and the
matching dag node(s), set the run running with cancel_requested cleared, and
emit `run_retry_requested`. (`start_run` spawns the worker and is outside
this state-level embedding.) Returns whether the retry was accepted. -/
def retryRun (db : Db) (run_id : String) (step_id : Option String)
    (request_id : String) : Bool × Db :=
  match Repository.getRun db run_id with
  | none => (false, db)
  | some run =>
    let dag := run.dag
    let attempt : Option (Dag × Db) :=
      match step_id with
      | some sid =>
        let (reset_ok, db) := Repository.resetStep db run_id sid
        if !reset_ok then none
        else some (resetNodeForStepRetry db dag sid, db)
      | none =>
        let (_, db) := Repository.resetFailedSteps db run_id
        some (resetFailedNodes dag, db)
    match attempt with
    | none => (false, db)
    | some (dag, db) =>
      let db := Repository.updateRun db run_id (fun r =>
        { r with status := "running", ended_at := none
                 cancel_requested := false, dag := dag })
      let (_, db) := Repository.createEvent db run_id "run_retry_requested"
        [("step_id", match step_id with | some s => .s s | none => .null),
         ("request_id", .s request_id)] none
      (true, db)

end TaskflowOrchestrator

namespace EventBroker

/-- One per-subscriber bounded queue (`asyncio.Queue(maxsize=256)` created in
`subscribe`) identified by the run id it watches. -/
structure Subscriber where
  run_id : String
  buffer : List Event
  deriving DecidableEq

/-- events/broker.py `publish`, restricted to a single queue: if the queue is
full its oldest element is dropped (`get_nowait`), then the event is enqueued
with `put_nowait`; a still-full queue after the drop (impossible while the
bound holds) skips the event (`except QueueFull: continue`). -/
def enqueueDropHead (buffer : List Event) (e : Event) : List Event :=
  let buffer := if 256 ≤ buffer.length then buffer.tail else buffer
  if buffer.length < 256 then buffer ++ [e] else buffer

/-- events/broker.py `publish`: enqueue to every current subscriber of
`event.run_id`. -/
def publish (subscribers : List Subscriber) (e : Event) : List Subscriber :=
  subscribers.map (fun sub =>
    if sub.run_id == e.run_id then { sub with buffer := enqueueDropHead sub.buffer e }
    else sub)

end EventBroker

/-! ## Concrete fixtures

Small concrete runs used to evaluate the embedding on explicit inputs:
a retried tool-gated run (c2-prefixed), a retry-budgeted run hitting the
max-steps bound (c1-prefixed), a terminal-failed run being retried
(c3-prefixed), and a reflection-adjusted run (c4-prefixed). -/

/-- Settings with all configuration defaults (core/settings.py). -/
def sampleSettings : Settings := {}

/-- Baseline resolved constraints. -/
def consBase : StateConstraints :=
  { budget_usd := 10, timeout_s := 60, max_steps := 20, reflection_interval_steps := 5 }

/-- A single dependency-free node. -/
def c1Node : Node :=
  { id := "n1", name := "N1", description := "d", depends_on := [],
    status := "pending", last_output := none, last_error := none }

/-- Contract whose empty allowed_tools forbids llm.generate; two retries. -/
def c1Contract : Contract := { allowed_tools := some [], max_retries := some 2 }

def c1Dag : Dag := { nodes := [c1Node], edges := [], contracts := [("n1", c1Contract)] }

def c1Run : RunRow :=
  { id := "r1", task := "t", template_id := none, status := "running",
    dag := c1Dag, diagnostics := [], started_at := some 0, ended_at := none,
    total_prompt_tokens := 0, total_completion_tokens := 0, total_tokens := 0,
    total_usd := 0, cancel_requested := false }

def c1Db : Db := { runs := [c1Run], steps := [], events := [], cost_ledger := [] }

/-- Worker state for the max-steps run: max_steps = 1. -/
def c1State : OrchState :=
  { run_id := "r1", task := "t", constraints := { consBase with max_steps := 1 },
    dag := c1Dag, step_counter := 0, progress_made := false,
    reflection_needed := false, reflection_reason := none,
    reflection_model_preference := none, failure_mode := none,
    should_finish := false, finish_status := none, finish_reason := none }

/-- Executor tick: the tool gate fails, one retry is scheduled (step pending,
attempts 1), step_counter reaches 1. -/
def c1Tick : OrchState × Db :=
  ExecutorService.executeNext sampleSettings (.exc "boom") "req" c1State c1Db

/-- Monitor tick: step_counter = max_steps fires max_steps_exceeded. -/
def c1Mon : OrchState :=
  MonitorService.evaluate (Repository.getRun c1Tick.snd "r1") 0 c1Tick.fst

/-- The dag persistence `_monitor_node` performs after evaluate. -/
def c1MonDb : Db :=
  Repository.updateRun c1Tick.snd "r1" (fun r => { r with dag := c1Mon.dag })

/-- Finish transition of the max-steps run (routeAfterMonitor picks finish). -/
def c1Final : OrchState × Db := TaskflowOrchestrator.finishNode c1Mon c1MonDb

/-- Contract with zero retries and the tool gate closed. -/
def c2Contract : Contract := { allowed_tools := some [], max_retries := some 0 }

def c2Dag : Dag := { nodes := [c1Node], edges := [], contracts := [("n1", c2Contract)] }

def c2Run : RunRow :=
  { id := "r1", task := "t", template_id := none, status := "running",
    dag := c2Dag, diagnostics := [], started_at := some 0, ended_at := none,
    total_prompt_tokens := 0, total_completion_tokens := 0, total_tokens := 0,
    total_usd := 0, cancel_requested := false }

def c2Db : Db := { runs := [c2Run], steps := [], events := [], cost_ledger := [] }

def c2State : OrchState :=
  { run_id := "r1", task := "t", constraints := consBase, dag := c2Dag,
    step_counter := 0, progress_made := false, reflection_needed := false,
    reflection_reason := none, reflection_model_preference := none,
    failure_mode := none, should_finish := false, finish_status := none,
    finish_reason := none }

/-- First executor tick: tool gate fails, attempts 1 > max_retries 0, so the
step is recorded failed with attempts = 1 = max_retries + 1. -/
def c2Tick1 : OrchState × Db :=
  ExecutorService.executeNext sampleSettings (.exc "boom") "req" c2State c2Db

/-- `retry_run(run, None)` on the failed run: the failed step becomes pending
but its attempts counter is not reset. -/
def c2AfterRetry : Bool × Db := TaskflowOrchestrator.retryRun c2Tick1.snd "r1" none "req2"

/-- The state the restarted worker builds from the stored run. -/
def c2State2 : OrchState :=
  { c2State with dag := ((Repository.getRun c2AfterRetry.snd "r1").getD c2Run).dag }

/-- Second executor tick after the retry: attempts 1 + 1 = 2 > 0, failed. -/
def c2Tick2 : OrchState × Db :=
  ExecutorService.executeNext sampleSettings (.exc "boom") "req2" c2State2 c2AfterRetry.snd

def c2Mon : OrchState :=
  MonitorService.evaluate (Repository.getRun c2Tick2.snd "r1") 0 c2Tick2.fst

def c2MonDb : Db :=
  Repository.updateRun c2Tick2.snd "r1" (fun r => { r with dag := c2Mon.dag })

/-- Terminal transition of the retried run (steps_failed). -/
def c2Final : OrchState × Db := TaskflowOrchestrator.finishNode c2Mon c2MonDb

def c3Err : ErrObj := { code := "timeout", message := "m", details := [] }

/-- A failed step row with three attempts recorded. -/
def c3Step : StepRow :=
  { id := "s1", run_id := "r3", node_id := "n1", status := "failed",
    attempts := 3, max_retries := 2, started_at := some 1, ended_at := some 2,
    input := { task := "t", node := c1Node, request_id := none },
    output := none, error := some c3Err, cost := none, logs := [] }

def c3Node : Node :=
  { id := "n1", name := "N", description := "d", depends_on := [],
    status := "failed", last_output := none, last_error := some c3Err }

def c3Run : RunRow :=
  { id := "r3", task := "t", template_id := none, status := "failed",
    dag := { nodes := [c3Node], edges := [], contracts := [] },
    diagnostics := [], started_at := some 0, ended_at := some 9,
    total_prompt_tokens := 0, total_completion_tokens := 0, total_tokens := 0,
    total_usd := 0, cancel_requested := false }

def c3Db : Db := { runs := [c3Run], steps := [c3Step], events := [], cost_ledger := [] }

/-- `retry_run(r3, None)` on the failed terminal run. -/
def c3After : Bool × Db := TaskflowOrchestrator.retryRun c3Db "r3" none "rq"

def c4NodeA : Node :=
  { id := "a", name := "A", description := "d", depends_on := [],
    status := "pending", last_output := none, last_error := none }

def c4NodeB : Node :=
  { id := "b", name := "B", description := "d", depends_on := [],
    status := "pending", last_output := none, last_error := none }

/-- Both node contracts ask for the cheap model. -/
def c4Contract : Contract := { model_preference := some "cheap" }

def c4Dag : Dag :=
  { nodes := [c4NodeA, c4NodeB], edges := [],
    contracts := [("a", c4Contract), ("b", c4Contract)] }

def c4Run : RunRow :=
  { id := "r4", task := "t", template_id := none, status := "running",
    dag := c4Dag, diagnostics := [], started_at := some 0, ended_at := none,
    total_prompt_tokens := 0, total_completion_tokens := 0, total_tokens := 0,
    total_usd := 0, cancel_requested := false }

def c4Db : Db := { runs := [c4Run], steps := [], events := [], cost_ledger := [] }

/-- State entering reflection at a periodic low_confidence boundary. -/
def c4State0 : OrchState :=
  { run_id := "r4", task := "t", constraints := consBase, dag := c4Dag,
    step_counter := 2, progress_made := true, reflection_needed := true,
    reflection_reason := some "Periodic reflection boundary reached",
    reflection_model_preference := none, failure_mode := some "low_confidence",
    should_finish := false, finish_status := none, finish_reason := none }

def c4Resp : LLMResponse :=
  { provider := "mock", model := "mock-expensive", content := "ok",
    prompt_tokens := 10, completion_tokens := 5 }

/-- Reflection on low_confidence: sets the expensive hint. -/
def c4Reflected : OrchState × Db := ReflectionService.reflect c4State0 c4Db

/-- First executor tick after the reflection. -/
def c4Tick1 : OrchState × Db :=
  ExecutorService.executeNext sampleSettings (.ok c4Resp) "rq" c4Reflected.fst c4Reflected.snd

/-- Second executor tick, not immediately preceded by a reflection. -/
def c4Tick2 : OrchState × Db :=
  ExecutorService.executeNext sampleSettings (.ok c4Resp) "rq" c4Tick1.fst c4Tick1.snd

/-- Canceled finish applied to the retry-pending run (for the C1 witness). -/
def c1CancelFinal : OrchState × Db :=
  TaskflowOrchestrator.finishNode
    { c1State with finish_status := some "canceled" } c1Tick.snd

/-- The step statuses the data model calls terminal for a step. -/
def stepTerminalStatus (s : String) : Bool :=
  s == "completed" || s == "failed" || s == "skipped" || s == "canceled"

/-- The six step statuses of the data model (db/models.py `StepStatus`). -/
def validStepStatus (s : String) : Bool :=
  s == "pending" || s == "running" || stepTerminalStatus s

/-- The run-total token invariant of the data model. -/
def runTokenInv (r : RunRow) : Prop :=
  r.total_tokens = r.total_prompt_tokens + r.total_completion_tokens

/-! ## Theorems -/

/-- C6: the monitor's decision cascade puts the cancel_requested check ahead
of every other rule except run-vanished, so for every existing run with
cancel_requested set, evaluation finishes the run canceled with reason
cancel_requested regardless of elapsed time, totals, node statuses or
step_counter (all quantified here), leaving every other state field
untouched. -/
theorem C6_monitor_cancel_priority (run : RunRow) (elapsed : Int) (state : OrchState)
    (h : run.cancel_requested = true) :
    MonitorService.evaluate (some run) elapsed state
      = { state with should_finish := true, finish_status := some "canceled",
                     finish_reason := some "cancel_requested" } := by
  unfold MonitorService.evaluate
  simp [h]

/-- Witness for C6 at a concrete canceled run. -/
theorem C6_monitor_cancel_priority_witness :
    MonitorService.evaluate (some { c1Run with cancel_requested := true }) 999 c1State
      = { c1State with should_finish := true, finish_status := some "canceled",
                       finish_reason := some "cancel_requested" } :=
  C6_monitor_cancel_priority { c1Run with cancel_requested := true } 999 c1State rfl

/-- C1 fails as stated: the run c1Run reaches the terminal status failed
(max_steps_exceeded) through the finish transition while its only step row is
still pending — the retry-scheduled step is left in a non-terminal status. -/
theorem C1_counterexample :
    ((Repository.getRun c1Final.snd "r1").map (·.status) = some "failed")
    ∧ (c1Final.snd.steps.map (fun s => (s.run_id, s.status)) = [("r1", "pending")])
    ∧ stepTerminalStatus "pending" = false := by
  decide

/-- C2 is violated by the code: after `retry_run(r1, None)` on a failed run
whose step had attempts = 1 = max_retries + 1, the attempts counter is not
reset, the next tick records attempts = 2, and the run reaches the terminal
status failed with a step where attempts = 2 > max_retries + 1 = 1. -/
theorem C2_attempts_bound_violated_after_retry :
    ((Repository.getRun c2Final.snd "r1").map (·.status) = some "failed")
    ∧ (c2Final.snd.steps.map (fun s => (s.status, s.attempts, s.max_retries))
        = [("failed", 2, 0)])
    ∧ ¬ (2 ≤ 0 + 1) := by
  decide

/-- C3 fails as stated: `retry_run(r3, None)` resets the failed step of run
r3 to pending with cleared output/error/cost, but its attempts counter stays
at 3 instead of the claimed 0 (`reset_failed_steps` has no attempts=0
assignment, unlike `reset_step`). -/
theorem C3_counterexample :
    (c3After.fst = true)
    ∧ (c3After.snd.steps.map (fun s => (s.status, s.attempts)) = [("pending", 3)])
    ∧ (3 ≠ 0) := by
  decide

/-- First-match characterization of the executor's node-selection scan. -/
theorem nextRunnableAux_some {all : List Node} :
    ∀ {l : List Node} {n : Node},
      ExecutorService.nextRunnableAux all l = some n →
      isRunnable all n = true
        ∧ ∃ pre post, l = pre ++ n :: post ∧ ∀ m ∈ pre, isRunnable all m = false := by
  intro l
  induction l with
  | nil => intro n h; simp [ExecutorService.nextRunnableAux] at h
  | cons a rest ih =>
    intro n h
    rw [ExecutorService.nextRunnableAux] at h
    by_cases ha : isRunnable all a
    · simp [ha] at h
      subst h
      exact ⟨ha, [], rest, rfl, by simp⟩
    · simp [ha] at h
      obtain ⟨hrun, pre, post, heq, hpre⟩ := ih h
      refine ⟨hrun, a :: pre, post, by simp [heq], ?_⟩
      intro m hm
      rcases List.mem_cons.mp hm with hma | hmp
      · subst hma; simpa using ha
      · exact hpre m hmp

/-- C10: a pending node whose depends_on contains an id absent from the DAG
is not runnable (the `.get` chain treats the missing id as not-completed, no
lookup error is possible since both lookups are total functions), so the
executor never selects it and the monitor's runnable check is never satisfied
through it. -/
theorem C10_missing_dependency_safe (nodes : List Node) (n : Node) (d : String)
    (hpend : n.status = "pending") (hd : d ∈ n.depends_on)
    (hmiss : nodeMapGet nodes d = none) :
    isRunnable nodes n = false
    ∧ ExecutorService.nextRunnableNode nodes ≠ some n
    ∧ (MonitorService.hasRunnableNodes nodes = true →
        ∃ m, m ∈ nodes ∧ isRunnable nodes m = true ∧ m ≠ n) := by
  have hdep : depCompleted nodes d = false := by
    unfold depCompleted
    rw [hmiss]
  have hrun : isRunnable nodes n = false := by
    unfold isRunnable
    have : n.depends_on.all (fun d2 => depCompleted nodes d2) = false := by
      rw [List.all_eq_false]
      exact ⟨d, hd, by simp [hdep]⟩
    simp [this]
  refine ⟨hrun, ?_, ?_⟩
  · intro hsel
    have := (nextRunnableAux_some hsel).1
    rw [hrun] at this
    exact Bool.false_ne_true this
  · intro hany
    unfold MonitorService.hasRunnableNodes at hany
    obtain ⟨m, hmem, hm⟩ := List.any_eq_true.mp hany
    refine ⟨m, hmem, hm, ?_⟩
    intro heq
    rw [heq, hrun] at hm
    exact Bool.false_ne_true hm

/-- Witness for C10: a node depending on the absent id ghost. -/
theorem C10_missing_dependency_safe_witness :
    isRunnable [{ c1Node with depends_on := ["ghost"] }]
        { c1Node with depends_on := ["ghost"] } = false := by
  have h := C10_missing_dependency_safe [{ c1Node with depends_on := ["ghost"] }]
    { c1Node with depends_on := ["ghost"] } "ghost" (by decide) (by decide) (by decide)
  exact h.1

/-- C8: publish enqueues into every current subscriber of the event's run_id;
on a bounded buffer (≤ 256) the enqueue keeps the bound, always ends with the
new event, drops exactly the oldest element when full, and is a plain append
otherwise. -/
theorem C8_broker_drop_head (subs : List EventBroker.Subscriber) (e : Event) :
    (∀ sub ∈ subs, sub.run_id = e.run_id →
      ({ sub with buffer := EventBroker.enqueueDropHead sub.buffer e })
        ∈ EventBroker.publish subs e)
    ∧ (∀ buf : List Event, buf.length ≤ 256 →
        (EventBroker.enqueueDropHead buf e).getLast? = some e
        ∧ (EventBroker.enqueueDropHead buf e).length ≤ 256
        ∧ (buf.length = 256 → EventBroker.enqueueDropHead buf e = buf.tail ++ [e])
        ∧ (buf.length < 256 → EventBroker.enqueueDropHead buf e = buf ++ [e])) := by
  constructor
  · intro sub hmem hrid
    unfold EventBroker.publish
    have hfun : ({ sub with buffer := EventBroker.enqueueDropHead sub.buffer e }
          : EventBroker.Subscriber)
        = (fun s2 => if s2.run_id == e.run_id then
            { s2 with buffer := EventBroker.enqueueDropHead s2.buffer e } else s2) sub := by
      simp [hrid]
    rw [hfun]
    exact List.mem_map_of_mem _ hmem
  · intro buf hle
    simp only [EventBroker.enqueueDropHead]
    by_cases h256 : 256 ≤ buf.length
    · have heq : buf.length = 256 := le_antisymm hle h256
      have htail : buf.tail.length = 255 := by
        rw [List.length_tail, heq]
      have hcond : buf.tail.length < 256 := by omega
      rw [if_pos h256, if_pos hcond]
      refine ⟨List.getLast?_concat _, ?_, ?_, ?_⟩
      · simp [htail]
      · intro _; rfl
      · intro habs; omega
    · have hlt : buf.length < 256 := Nat.lt_of_not_le h256
      rw [if_neg h256, if_pos hlt]
      refine ⟨List.getLast?_concat _, ?_, ?_, ?_⟩
      · simp only [List.length_append, List.length_singleton]
        omega
      · intro habs; omega
      · intro _; rfl

/-- Witness for C8 at a concrete one-subscriber broker. -/
theorem C8_broker_drop_head_witness :
    ({ run_id := "r1", buffer :=
        EventBroker.enqueueDropHead []
          { id := "e1", run_id := "r1", step_id := none, event_type := "run_created",
            payload := [], created_at := 0 } } : EventBroker.Subscriber)
      ∈ EventBroker.publish [{ run_id := "r1", buffer := [] }]
          { id := "e1", run_id := "r1", step_id := none, event_type := "run_created",
            payload := [], created_at := 0 } :=
  (C8_broker_drop_head [{ run_id := "r1", buffer := [] }]
      { id := "e1", run_id := "r1", step_id := none, event_type := "run_created",
        payload := [], created_at := 0 }).1
    { run_id := "r1", buffer := [] } (by decide) rfl

/-- `_handle_step_error` never touches progress_made. -/
theorem handleStepError_progress (state : OrchState) (db : Db) (sid : String)
    (node : Node) (a mr : Nat) (sa : Option Nat) (err : ErrObj) :
    (ExecutorService.handleStepError state db sid node a mr sa err).fst.progress_made
      = state.progress_made := by
  unfold ExecutorService.handleStepError
  repeat' split
  all_goals rfl

/-- `_handle_step_error` never touches reflection_model_preference. -/
theorem handleStepError_pref (state : OrchState) (db : Db) (sid : String)
    (node : Node) (a mr : Nat) (sa : Option Nat) (err : ErrObj) :
    (ExecutorService.handleStepError state db sid node a mr sa err).fst.reflection_model_preference
      = state.reflection_model_preference := by
  unfold ExecutorService.handleStepError
  repeat' split
  all_goals rfl

/-- With no runnable node, one executor tick only clears progress_made and
leaves the store untouched. -/
theorem executeNext_none (st : Settings) (llm : ExecutorService.LLMOutcome) (rq : String)
    (state : OrchState) (db : Db)
    (h : ExecutorService.nextRunnableNode state.dag.nodes = none) :
    ExecutorService.executeNext st llm rq state db
      = ({ state with progress_made := false }, db) := by
  unfold ExecutorService.executeNext
  rw [h]

/-- With a runnable node selected, the tick reports progress on every branch. -/
theorem executeNext_some_progress (st : Settings) (llm : ExecutorService.LLMOutcome)
    (rq : String) (state : OrchState) (db : Db) (n : Node)
    (h : ExecutorService.nextRunnableNode state.dag.nodes = some n) :
    (ExecutorService.executeNext st llm rq state db).fst.progress_made = true := by
  unfold ExecutorService.executeNext
  rw [h]
  cases hex : Repository.getStepByNode db state.run_id n.id <;>
    simp only [hex] <;>
    cases llm <;>
    (repeat' split) <;>
    first
      | rw [handleStepError_progress]
      | rfl

/-- No branch of the executor writes reflection_model_preference. -/
theorem executeNext_pref (st : Settings) (llm : ExecutorService.LLMOutcome)
    (rq : String) (state : OrchState) (db : Db) :
    (ExecutorService.executeNext st llm rq state db).fst.reflection_model_preference
      = state.reflection_model_preference := by
  unfold ExecutorService.executeNext
  cases hsel : ExecutorService.nextRunnableNode state.dag.nodes with
  | none => rfl
  | some n =>
    cases hex : Repository.getStepByNode db state.run_id n.id <;>
      simp only [hex] <;>
      cases llm <;>
      (repeat' split) <;>
      first
        | rw [handleStepError_pref]
        | rfl

/-- C7: execute_next acts on the first pending node in declaration order
whose every dependency is completed; with no such node it sets
progress_made=false and returns the state and store unchanged, otherwise it
reports progress_made=true. -/
theorem C7_executor_node_selection (st : Settings) (llm : ExecutorService.LLMOutcome)
    (rq : String) (state : OrchState) (db : Db) :
    (ExecutorService.nextRunnableNode state.dag.nodes = none →
      ExecutorService.executeNext st llm rq state db
        = ({ state with progress_made := false }, db))
    ∧ (∀ n, ExecutorService.nextRunnableNode state.dag.nodes = some n →
      (ExecutorService.executeNext st llm rq state db).fst.progress_made = true
      ∧ n.status = "pending"
      ∧ (∀ d ∈ n.depends_on, depCompleted state.dag.nodes d = true)
      ∧ ∃ pre post, state.dag.nodes = pre ++ n :: post
          ∧ ∀ m ∈ pre, isRunnable state.dag.nodes m = false) := by
  constructor
  · intro h
    exact executeNext_none st llm rq state db h
  · intro n h
    unfold ExecutorService.nextRunnableNode at h
    obtain ⟨hrun, pre, post, heq, hpre⟩ := nextRunnableAux_some h
    have hr := hrun
    unfold isRunnable at hr
    rw [Bool.and_eq_true] at hr
    refine ⟨executeNext_some_progress st llm rq state db n (by
        unfold ExecutorService.nextRunnableNode; exact h), ?_, ?_, pre, post, heq, hpre⟩
    · simpa using hr.1
    · intro d hd
      have hall := hr.2
      rw [List.all_eq_true] at hall
      simpa using hall d hd

/-- Witness for C7 at the concrete single-node run. -/
theorem C7_executor_node_selection_witness :
    (ExecutorService.executeNext sampleSettings (.exc "boom") "req" c1State c1Db).fst.progress_made
      = true :=
  (((C7_executor_node_selection sampleSettings (.exc "boom") "req" c1State c1Db).2
    c1Node (by decide))).1

/-- C4 fails as stated: after a low_confidence reflection sets the expensive
hint, the hint is still present after the next executor tick (nothing clears
it), and the second tick — not immediately preceded by a reflection — still
resolves the expensive model even though both node contracts prefer cheap. -/
theorem C4_counterexample :
    (c4Reflected.fst.reflection_model_preference = some "expensive")
    ∧ (c4Tick1.fst.reflection_model_preference = some "expensive")
    ∧ (c4Tick2.snd.cost_ledger.map (·.model) = ["mock-expensive", "mock-expensive"])
    ∧ ((c4Dag.getContract "b").model_preference.getD "default" = "cheap")
    ∧ (ModelRouter.forStep sampleSettings (some "cheap") .executor = "mock-cheap")
    ∧ ("mock-expensive" ≠ "mock-cheap") := by
  decide

/-- C4 amended: a low_confidence reflection sets
reflection_model_preference = "expensive"; the hint is never cleared (no
executor branch writes the field), and as long as it is set, every tick's
model resolution yields "expensive" and routes to the expensive model,
regardless of the node contract. -/
theorem C4_reflection_hint_persists (state : OrchState) (db : Db)
    (hneed : state.reflection_needed = true)
    (hmode : state.failure_mode = some "low_confidence") :
    ((ReflectionService.reflect state db).fst.reflection_model_preference = some "expensive")
    ∧ (∀ (st : Settings) (llm : ExecutorService.LLMOutcome) (rq : String)
        (s2 : OrchState) (db2 : Db),
        (ExecutorService.executeNext st llm rq s2 db2).fst.reflection_model_preference
          = s2.reflection_model_preference)
    ∧ (∀ (st : Settings) (c : Contract),
        strOr (some "expensive") (c.model_preference.getD "default") = "expensive"
        ∧ ModelRouter.forStep st (some "expensive") .executor = st.llm_expensive_model) := by
  refine ⟨?_, executeNext_pref, ?_⟩
  · unfold ReflectionService.reflect
    rw [hneed, hmode]
    cases hg : Repository.getRun db state.run_id <;>
      simp [ReflectionService.decideAction, strOr, Repository.appendRunDiagnostic,
        Repository.createEvent, Repository.updateRun, Db.fresh, hg]
  · intro st c
    constructor
    · rfl
    · rfl

/-- Witness for C4's amended statement at the concrete reflection state. -/
theorem C4_reflection_hint_persists_witness :
    (ReflectionService.reflect c4State0 c4Db).fst.reflection_model_preference
      = some "expensive" :=
  (C4_reflection_hint_persists c4State0 c4Db rfl rfl).1

theorem stepKeySelf (p : StepRow) :
    (p.run_id == p.run_id && p.node_id == p.node_id) = true := by
  simp

theorem find_map_replace (p : StepRow) :
    ∀ l : List StepRow,
      l.any (fun s => s.run_id == p.run_id && s.node_id == p.node_id) = true →
      (l.map (fun s => if s.run_id == p.run_id && s.node_id == p.node_id then p else s)).find?
          (fun s => s.run_id == p.run_id && s.node_id == p.node_id) = some p := by
  intro l
  induction l with
  | nil => intro h; simp at h
  | cons a rest ih =>
    intro h
    by_cases ha : (a.run_id == p.run_id && a.node_id == p.node_id) = true
    · simp only [List.map_cons, ha, if_true]
      exact List.find?_cons_of_pos _ (stepKeySelf p)
    · simp only [List.map_cons, ha, if_false]
      rw [List.find?_cons_of_neg _ (by simpa using ha)]
      apply ih
      simp only [List.any_cons, ha, Bool.false_or] at h
      exact h

theorem find_append_self (p : StepRow) :
    ∀ l : List StepRow,
      l.any (fun s => s.run_id == p.run_id && s.node_id == p.node_id) = false →
      (l ++ [p]).find? (fun s => s.run_id == p.run_id && s.node_id == p.node_id) = some p := by
  intro l
  induction l with
  | nil =>
    intro _
    simpa using List.find?_cons_of_pos _ (stepKeySelf p)
  | cons a rest ih =>
    intro h
    simp only [List.any_cons, Bool.or_eq_false_iff] at h
    rw [List.cons_append, List.find?_cons_of_neg _ (by simp [h.1])]
    exact ih h.2

theorem getStepByNode_upsertStep (db : Db) (p : StepRow) :
    Repository.getStepByNode (Repository.upsertStep db p) p.run_id p.node_id = some p := by
  unfold Repository.getStepByNode Repository.upsertStep
  by_cases hany : db.steps.any (fun s => s.run_id == p.run_id && s.node_id == p.node_id) = true
  · simp only [hany, if_true]
    exact find_map_replace p db.steps hany
  · simp only [Bool.not_eq_true] at hany
    simp only [hany, if_false]
    exact find_append_self p db.steps hany

theorem getStepByNode_congr_steps (db1 db2 : Db) (rid nid : String)
    (h : db1.steps = db2.steps) :
    Repository.getStepByNode db1 rid nid = Repository.getStepByNode db2 rid nid := by
  unfold Repository.getStepByNode
  rw [h]

/-- C5: `_handle_step_error` on a failing attempt: with attempts within
max_retries the step row is re-recorded pending with attempts and the
structured error preserved, the node is set pending with last_error, a
step_retry_scheduled event carries backoff_s = min(2^(attempts-1), 8), and
step_counter is incremented; with retries exhausted the step row is recorded
failed with ended_at and the error, the node fails, reflection_needed is set
with the failure mode mapped timeout-to-timeout, schema_error-to-schema_error
and anything else to other, and a step_failed event is emitted. -/
theorem C5_retry_path (state : OrchState) (db : Db) (step_id : String) (node : Node)
    (attempts max_retries : Nat) (sa : Option Nat) (err : ErrObj)
    (h1 : 1 ≤ attempts) :
    let R := ExecutorService.handleStepError state db step_id node attempts max_retries sa err
    (attempts ≤ max_retries →
      Repository.getStepByNode R.snd state.run_id node.id
        = some { id := step_id, run_id := state.run_id, node_id := node.id,
                 status := "pending", attempts := attempts, max_retries := max_retries,
                 started_at := sa, ended_at := some db.tick,
                 input := { task := state.task,
                            node := { node with status := "pending", last_error := some err },
                            request_id := none },
                 output := none, error := some err, cost := none, logs := [] }
      ∧ (∀ n2 ∈ R.fst.dag.nodes, n2.id = node.id →
          n2.status = "pending" ∧ n2.last_error = some err)
      ∧ (R.snd.events.getLast?.map (fun e2 => (e2.event_type, e2.payload)))
          = some ("step_retry_scheduled",
              [("node_id", JVal.s node.id), ("attempt", JVal.n attempts),
               ("max_retries", JVal.n max_retries),
               ("backoff_s", JVal.n (min (2 ^ (attempts - 1)) 8)),
               ("error", JVal.e err)])
      ∧ R.fst.step_counter = state.step_counter + 1)
    ∧ (max_retries < attempts →
      Repository.getStepByNode R.snd state.run_id node.id
        = some { id := step_id, run_id := state.run_id, node_id := node.id,
                 status := "failed", attempts := attempts, max_retries := max_retries,
                 started_at := sa, ended_at := some db.tick,
                 input := { task := state.task,
                            node := { node with status := "failed", last_error := some err },
                            request_id := none },
                 output := none, error := some err, cost := none, logs := [] }
      ∧ (∀ n2 ∈ R.fst.dag.nodes, n2.id = node.id →
          n2.status = "failed" ∧ n2.last_error = some err)
      ∧ R.fst.reflection_needed = true
      ∧ R.fst.failure_mode = some (ExecutorService.mapFailureMode err.code)
      ∧ (R.snd.events.getLast?.map (·.event_type)) = some "step_failed")
    ∧ ExecutorService.mapFailureMode "timeout" = "timeout"
    ∧ ExecutorService.mapFailureMode "schema_error" = "schema_error"
    ∧ (err.code ≠ "timeout" → err.code ≠ "schema_error" →
        ExecutorService.mapFailureMode err.code = "other") := by
  intro R
  have hmem : ∀ (st2 : String) (n2 : Node),
      n2 ∈ (ExecutorService.updateDagNode state.dag node.id (fun n =>
        { n with status := st2, last_error := some err })).nodes →
      n2.id = node.id → n2.status = st2 ∧ n2.last_error = some err := by
    intro st2 n2 hn2 hid
    unfold ExecutorService.updateDagNode at hn2
    simp only [List.mem_map] at hn2
    obtain ⟨n0, hn0, rfl⟩ := hn2
    by_cases hm : (n0.id == node.id) = true
    · simp [hm]
    · simp only [hm, if_false] at hid ⊢
      exact absurd hid (by simpa using hm)
  refine ⟨?_, ?_, rfl, rfl, ?_⟩
  · intro h2
    have hsteps : R.snd.steps = (Repository.upsertStep { db with tick := db.tick + 1 }
        { id := step_id, run_id := state.run_id, node_id := node.id,
          status := "pending", attempts := attempts, max_retries := max_retries,
          started_at := sa, ended_at := some db.tick,
          input := { task := state.task,
                     node := { node with status := "pending", last_error := some err },
                     request_id := none },
          output := none, error := some err, cost := none, logs := [] }).steps := by
      show (ExecutorService.handleStepError state db step_id node attempts max_retries sa err).snd.steps = _
      unfold ExecutorService.handleStepError
      simp only [Db.fresh]
      rw [if_pos h2]
      rfl
    have hdag : R.fst.dag = ExecutorService.updateDagNode state.dag node.id (fun n =>
        { n with status := "pending", last_error := some err }) := by
      show (ExecutorService.handleStepError state db step_id node attempts max_retries sa err).fst.dag = _
      unfold ExecutorService.handleStepError
      simp only [Db.fresh]
      rw [if_pos h2]
    have hev0 : R.snd.events = db.events ++
        [{ id := "uuid-" ++ toString (db.tick + 1), run_id := state.run_id,
           step_id := some step_id, event_type := "step_retry_scheduled",
           payload := [("node_id", JVal.s node.id), ("attempt", JVal.n attempts),
             ("max_retries", JVal.n max_retries),
             ("backoff_s", JVal.n (min (2 ^ (attempts - 1)) 8)),
             ("error", JVal.e err)],
           created_at := db.tick + 1 }] := by
      show (ExecutorService.handleStepError state db step_id node attempts max_retries sa err).snd.events = _
      unfold ExecutorService.handleStepError
      simp only [Db.fresh]
      rw [if_pos h2]
      rfl
    have hev : (R.snd.events.getLast?.map (fun e2 => (e2.event_type, e2.payload)))
        = some ("step_retry_scheduled",
            [("node_id", JVal.s node.id), ("attempt", JVal.n attempts),
             ("max_retries", JVal.n max_retries),
             ("backoff_s", JVal.n (min (2 ^ (attempts - 1)) 8)),
             ("error", JVal.e err)]) := by
      rw [hev0, List.getLast?_concat]
      rfl
    have hcnt : R.fst.step_counter = state.step_counter + 1 := by
      show (ExecutorService.handleStepError state db step_id node attempts max_retries sa err).fst.step_counter = _
      unfold ExecutorService.handleStepError
      simp only [Db.fresh]
      rw [if_pos h2]
    refine ⟨?_, ?_, hev, hcnt⟩
    · rw [getStepByNode_congr_steps _ _ _ _ hsteps]
      exact getStepByNode_upsertStep _ _
    · intro n2 hn2 hid
      rw [hdag] at hn2
      exact hmem "pending" n2 hn2 hid
  · intro h3
    have h2 : ¬ attempts ≤ max_retries := by omega
    have hsteps : R.snd.steps = (Repository.upsertStep { db with tick := db.tick + 1 }
        { id := step_id, run_id := state.run_id, node_id := node.id,
          status := "failed", attempts := attempts, max_retries := max_retries,
          started_at := sa, ended_at := some db.tick,
          input := { task := state.task,
                     node := { node with status := "failed", last_error := some err },
                     request_id := none },
          output := none, error := some err, cost := none, logs := [] }).steps := by
      show (ExecutorService.handleStepError state db step_id node attempts max_retries sa err).snd.steps = _
      unfold ExecutorService.handleStepError
      simp only [Db.fresh]
      rw [if_neg h2]
      rfl
    have hdag : R.fst.dag = ExecutorService.updateDagNode state.dag node.id (fun n =>
        { n with status := "failed", last_error := some err }) := by
      show (ExecutorService.handleStepError state db step_id node attempts max_retries sa err).fst.dag = _
      unfold ExecutorService.handleStepError
      simp only [Db.fresh]
      rw [if_neg h2]
    have hrefl : R.fst.reflection_needed = true := by
      show (ExecutorService.handleStepError state db step_id node attempts max_retries sa err).fst.reflection_needed = _
      unfold ExecutorService.handleStepError
      simp only [Db.fresh]
      rw [if_neg h2]
    have hfm : R.fst.failure_mode = some (ExecutorService.mapFailureMode err.code) := by
      show (ExecutorService.handleStepError state db step_id node attempts max_retries sa err).fst.failure_mode = _
      unfold ExecutorService.handleStepError
      simp only [Db.fresh]
      rw [if_neg h2]
    have hev0 : R.snd.events = db.events ++
        [{ id := "uuid-" ++ toString (db.tick + 1), run_id := state.run_id,
           step_id := some step_id, event_type := "step_failed",
           payload := [("node_id", JVal.s node.id), ("error", JVal.e err)],
           created_at := db.tick + 1 }] := by
      show (ExecutorService.handleStepError state db step_id node attempts max_retries sa err).snd.events = _
      unfold ExecutorService.handleStepError
      simp only [Db.fresh]
      rw [if_neg h2]
      rfl
    have hev : (R.snd.events.getLast?.map (·.event_type)) = some "step_failed" := by
      rw [hev0, List.getLast?_concat]
      rfl
    refine ⟨?_, ?_, hrefl, hfm, hev⟩
    · rw [getStepByNode_congr_steps _ _ _ _ hsteps]
      exact getStepByNode_upsertStep _ _
    · intro n2 hn2 hid
      rw [hdag] at hn2
      exact hmem "failed" n2 hn2 hid
  · intro ht hs
    unfold ExecutorService.mapFailureMode
    rw [if_neg (by simpa using ht), if_neg (by simpa using hs)]

/-- Witness for C5: a concrete failing attempt with retries remaining. -/
theorem C5_retry_path_witness :
    (ExecutorService.handleStepError c2State c2Db "s" c1Node 1 2 (some 0) c3Err).fst.step_counter
      = c2State.step_counter + 1 :=
  (((C5_retry_path c2State c2Db "s" c1Node 1 2 (some 0) c3Err (by decide)).1 (by decide)).2.2.2)

theorem runTokenInv_updateRun (db : Db) (rid : String) (f : RunRow → RunRow)
    (hf : ∀ r, runTokenInv r → runTokenInv (f r))
    (hall : ∀ r ∈ db.runs, runTokenInv r) :
    ∀ r ∈ (Repository.updateRun db rid f).runs, runTokenInv r := by
  intro r hr
  unfold Repository.updateRun at hr
  simp only [List.mem_map] at hr
  obtain ⟨r0, hr0, rfl⟩ := hr
  by_cases h : (r0.id == rid) = true
  · simp only [h, if_true]
    exact hf r0 (hall r0 hr0)
  · simp only [h, if_false]
    exact hall r0 hr0

theorem runTokenInv_updateRunDag (db : Db) (rid : String) (dag : Dag)
    (hall : ∀ r ∈ db.runs, runTokenInv r) :
    ∀ r ∈ (Repository.updateRun db rid (fun r => { r with dag := dag })).runs,
      runTokenInv r :=
  runTokenInv_updateRun db rid _ (fun _ h => h) hall

theorem incrementRunTotals_runTokenInv (db : Db) (rid : String) (p c t : Nat) (usd : ℚ)
    (ht : t = p + c)
    (hall : ∀ r ∈ db.runs, runTokenInv r) :
    ∀ r ∈ (Repository.incrementRunTotals db rid p c t usd).runs, runTokenInv r := by
  unfold Repository.incrementRunTotals
  apply runTokenInv_updateRun
  · intro r h
    unfold runTokenInv at h ⊢
    subst ht
    simp only []
    omega
  · exact hall

theorem handleStepError_runTokenInv (state : OrchState) (db : Db) (sid : String)
    (node : Node) (a mr : Nat) (sa : Option Nat) (err : ErrObj)
    (hall : ∀ r ∈ db.runs, runTokenInv r) :
    ∀ r ∈ (ExecutorService.handleStepError state db sid node a mr sa err).snd.runs,
      runTokenInv r := by
  unfold ExecutorService.handleStepError
  simp only [Db.fresh]
  split
  · exact runTokenInv_updateRunDag _ _ _ hall
  · exact runTokenInv_updateRunDag _ _ _ hall

theorem executeNext_runTokenInv (st : Settings) (llm : ExecutorService.LLMOutcome)
    (rq : String) (state : OrchState) (db : Db)
    (hall : ∀ r ∈ db.runs, runTokenInv r) :
    ∀ r ∈ (ExecutorService.executeNext st llm rq state db).snd.runs, runTokenInv r := by
  unfold ExecutorService.executeNext
  cases hsel : ExecutorService.nextRunnableNode state.dag.nodes with
  | none => exact hall
  | some n =>
    cases hex : Repository.getStepByNode db state.run_id n.id <;>
      simp only [hex] <;>
      cases llm <;>
      (repeat' split) <;>
      first
        | exact hall
        | (apply handleStepError_runTokenInv
           exact runTokenInv_updateRunDag _ _ _ hall)
        | (apply runTokenInv_updateRunDag
           apply incrementRunTotals_runTokenInv _ _ _ _ _ _ rfl
           apply runTokenInv_updateRunDag
           exact hall)

theorem plan_runTokenInv (st : Settings) (llm : LLMResponse) (run : RunRow) (db : Db)
    (hall : ∀ r ∈ db.runs, runTokenInv r) :
    ∀ r ∈ (PlannerService.plan st llm run db).snd.runs, runTokenInv r := by
  unfold PlannerService.plan
  simp only [Db.fresh]
  repeat' split
  all_goals
    first
      | exact hall
      | (apply runTokenInv_updateRunDag
         apply incrementRunTotals_runTokenInv _ _ _ _ _ _ rfl
         exact hall)

/-- C9: run.total_tokens = total_prompt_tokens + total_completion_tokens is
an invariant: the estimator always returns total = prompt + completion, runs
are created with all totals 0, the atomic counter increment preserves the
invariant whenever the delta satisfies it, and both embedded call sites
(executor tick and planner) only increment with estimator output. -/
theorem C9_token_totals_invariant (st : Settings) :
    (∀ (model : String) (p c : Nat),
      (CostEstimator.estimate st model p c).total_tokens
        = (CostEstimator.estimate st model p c).prompt_tokens
          + (CostEstimator.estimate st model p c).completion_tokens)
    ∧ (∀ (db : Db) (rid task : String) (tmpl : Option String),
        (∀ r ∈ db.runs, runTokenInv r) →
        ∀ r ∈ (Repository.createRun db rid task tmpl).runs, runTokenInv r)
    ∧ (∀ (db : Db) (rid : String) (p c t : Nat) (usd : ℚ),
        t = p + c → (∀ r ∈ db.runs, runTokenInv r) →
        ∀ r ∈ (Repository.incrementRunTotals db rid p c t usd).runs, runTokenInv r)
    ∧ (∀ (llm : ExecutorService.LLMOutcome) (rq : String) (state : OrchState) (db : Db),
        (∀ r ∈ db.runs, runTokenInv r) →
        ∀ r ∈ (ExecutorService.executeNext st llm rq state db).snd.runs, runTokenInv r)
    ∧ (∀ (llm : LLMResponse) (run : RunRow) (db : Db),
        (∀ r ∈ db.runs, runTokenInv r) →
        ∀ r ∈ (PlannerService.plan st llm run db).snd.runs, runTokenInv r) := by
  refine ⟨fun model p c => rfl, ?_, ?_, ?_, ?_⟩
  · intro db rid task tmpl hall r hr
    unfold Repository.createRun at hr
    simp only [List.mem_append, List.mem_singleton] at hr
    rcases hr with hr | hr
    · exact hall r hr
    · subst hr; rfl
  · intro db rid p c t usd ht hall
    exact incrementRunTotals_runTokenInv db rid p c t usd ht hall
  · intro llm rq state db hall
    exact executeNext_runTokenInv st llm rq state db hall
  · intro llm run db hall
    exact plan_runTokenInv st llm run db hall

theorem C9_token_totals_invariant_witness :
    ∀ r ∈ (Repository.incrementRunTotals c2Db "r1" 3 4 7 0).runs, runTokenInv r :=
  (C9_token_totals_invariant sampleSettings).2.2.1 c2Db "r1" 3 4 7 0 rfl (by
    intro r hr
    simp only [c2Db, List.mem_singleton] at hr
    subst hr
    rfl)

/-- C3 amended: retry_run(run_id, None) on an existing run resets every
failed step of the run to pending with started_at/ended_at/output/error/cost
cleared and attempts preserved (the record update keeps `attempts`), resets
every failed dag node to pending with last_error/last_output cleared, clears
cancel_requested and ended_at, and sets the run status to running. -/
theorem C3_retry_run_resets_failed_steps (db : Db) (run_id request_id : String)
    (run : RunRow) (hrun : Repository.getRun db run_id = some run) :
    let R := TaskflowOrchestrator.retryRun db run_id none request_id
    R.fst = true
    ∧ (∀ s ∈ db.steps, s.run_id = run_id → s.status = "failed" →
        ({ s with status := "pending", started_at := none, ended_at := none,
                  output := none, error := none, cost := none } : StepRow) ∈ R.snd.steps)
    ∧ (∀ r ∈ R.snd.runs, r.id = run_id →
        r.status = "running" ∧ r.cancel_requested = false ∧ r.ended_at = none
        ∧ r.dag = TaskflowOrchestrator.resetFailedNodes run.dag)
    ∧ (∀ n ∈ run.dag.nodes, n.status = "failed" →
        ({ n with status := "pending", last_error := none, last_output := none } : Node)
          ∈ (TaskflowOrchestrator.resetFailedNodes run.dag).nodes) := by
  intro R
  have hfst : R.fst = true := by
    show (TaskflowOrchestrator.retryRun db run_id none request_id).fst = true
    unfold TaskflowOrchestrator.retryRun
    rw [hrun]
  have hsteps : R.snd.steps = db.steps.map (fun s =>
      if s.run_id == run_id && s.status == "failed" then
        { s with status := "pending", started_at := none, ended_at := none,
                 output := none, error := none, cost := none }
      else s) := by
    show (TaskflowOrchestrator.retryRun db run_id none request_id).snd.steps = _
    unfold TaskflowOrchestrator.retryRun
    rw [hrun]
    rfl
  have hruns : R.snd.runs = db.runs.map (fun r =>
      if r.id == run_id then
        { r with status := "running", ended_at := none, cancel_requested := false,
                 dag := TaskflowOrchestrator.resetFailedNodes run.dag }
      else r) := by
    show (TaskflowOrchestrator.retryRun db run_id none request_id).snd.runs = _
    unfold TaskflowOrchestrator.retryRun
    rw [hrun]
    rfl
  refine ⟨hfst, ?_, ?_, ?_⟩
  · intro s hs hrid hfail
    have heq : ({ s with status := "pending", started_at := none, ended_at := none,
                         output := none, error := none, cost := none } : StepRow)
        = (fun s => if s.run_id == run_id && s.status == "failed" then
            { s with status := "pending", started_at := none, ended_at := none,
                     output := none, error := none, cost := none }
          else s) s := by
      simp [hrid, hfail]
    rw [hsteps, heq]
    exact List.mem_map_of_mem _ hs
  · intro r hr hid
    rw [hruns] at hr
    simp only [List.mem_map] at hr
    obtain ⟨r0, hr0, rfl⟩ := hr
    by_cases h : (r0.id == run_id) = true
    · simp [h]
    · simp only [h, if_false] at hid ⊢
      exact absurd hid (by simpa using h)
  · intro n hn hfail
    have heq : ({ n with status := "pending", last_error := none, last_output := none } : Node)
        = (fun n => if n.status == "failed" then
            { n with status := "pending", last_error := none, last_output := none }
          else n) n := by
      simp [hfail]
    unfold TaskflowOrchestrator.resetFailedNodes
    rw [heq]
    exact List.mem_map_of_mem _ hn

/-- Witness for C3's amended statement on the concrete failed run. -/
theorem C3_retry_run_resets_failed_steps_witness :
    (TaskflowOrchestrator.retryRun c3Db "r3" none "rq").fst = true :=
  (C3_retry_run_resets_failed_steps c3Db "r3" "rq" c3Run (by decide)).1

/-- A row of the store after an upsert is either the payload or an old row
whose (run_id, node_id) key differs from the payload's. -/
theorem mem_upsertStep_steps {db : Db} {p s : StepRow}
    (h : s ∈ (Repository.upsertStep db p).steps) :
    s = p ∨ (s ∈ db.steps ∧ ¬(s.run_id = p.run_id ∧ s.node_id = p.node_id)) := by
  unfold Repository.upsertStep at h
  simp only [] at h
  split at h
  · next hany =>
    simp only [List.mem_map] at h
    obtain ⟨s0, hs0, hseq⟩ := h
    by_cases hk : (s0.run_id == p.run_id && s0.node_id == p.node_id) = true
    · rw [if_pos hk] at hseq
      exact Or.inl hseq.symm
    · rw [if_neg hk] at hseq
      subst hseq
      refine Or.inr ⟨hs0, ?_⟩
      intro hkey
      exact hk (by simp [hkey.1, hkey.2])
  · next hany =>
    rcases List.mem_append.mp h with hmem | hp
    · refine Or.inr ⟨hmem, ?_⟩
      intro hkey
      have : db.steps.any (fun s2 => s2.run_id == p.run_id && s2.node_id == p.node_id) = true :=
        List.any_eq_true.mpr ⟨s, hmem, by simp [hkey.1, hkey.2]⟩
      exact hany this
    · exact Or.inl (List.mem_singleton.mp hp)

/-- Invariant of the `_mark_open_steps_canceled` loop: if every step of the
run is terminal or has an open witness among the rows still to process, then
after the fold every step of the run is terminal. -/
theorem cancelOpen_invariant (rid : String) :
    ∀ (l : List StepRow) (db : Db),
      (∀ s ∈ db.steps, s.run_id = rid →
        stepTerminalStatus s.status = true
        ∨ ∃ s2 ∈ l, s2.run_id = s.run_id ∧ s2.node_id = s.node_id
            ∧ (s2.status = "pending" ∨ s2.status = "running")) →
      ∀ s ∈ (l.foldl TaskflowOrchestrator.cancelOpenStep db).steps, s.run_id = rid →
        stepTerminalStatus s.status = true := by
  intro l
  induction l with
  | nil =>
    intro db hinv s hs hrid
    rcases hinv s hs hrid with h | ⟨s2, hs2, _⟩
    · exact h
    · exact absurd hs2 (List.not_mem_nil s2)
  | cons a rest ih =>
    intro db hinv
    rw [List.foldl_cons]
    apply ih
    intro s hs hrid
    unfold TaskflowOrchestrator.cancelOpenStep at hs
    by_cases hopen : (a.status == "pending" || a.status == "running") = true
    · rw [if_pos hopen] at hs
      simp only [Db.fresh] at hs
      rcases mem_upsertStep_steps hs with rfl | ⟨hmem, hkey⟩
      · exact Or.inl rfl
      · rcases hinv s hmem hrid with hterm | ⟨s2, hs2, hk1, hk2, hst⟩
        · exact Or.inl hterm
        · rcases List.mem_cons.mp hs2 with heq2 | hs2r
          · subst heq2
            exact absurd ⟨hk1.symm, hk2.symm⟩ hkey
          · exact Or.inr ⟨s2, hs2r, hk1, hk2, hst⟩
    · rw [if_neg hopen] at hs
      rcases hinv s hs hrid with hterm | ⟨s2, hs2, hk1, hk2, hst⟩
      · exact Or.inl hterm
      · rcases List.mem_cons.mp hs2 with heq2 | hs2r
        · subst heq2
          refine absurd hopen ?_
          rcases hst with h2 | h2 <;> simp [h2]
        · exact Or.inr ⟨s2, hs2r, hk1, hk2, hst⟩

/-- After `_mark_open_steps_canceled`, every step row of the run carries a
terminal status (assuming the store only holds valid step statuses). -/
theorem markOpen_terminal (state : OrchState) (db : Db)
    (hvalid : ∀ s ∈ db.steps, validStepStatus s.status = true) :
    ∀ s ∈ (TaskflowOrchestrator.markOpenStepsCanceled state db).snd.steps,
      s.run_id = state.run_id → stepTerminalStatus s.status = true := by
  unfold TaskflowOrchestrator.markOpenStepsCanceled
  simp only []
  apply cancelOpen_invariant
  intro s hs hrid
  have hv := hvalid s hs
  unfold validStepStatus at hv
  by_cases hterm : stepTerminalStatus s.status = true
  · exact Or.inl hterm
  · right
    refine ⟨s, ?_, rfl, rfl, ?_⟩
    · unfold Repository.listSteps
      rw [List.mem_filter]
      exact ⟨hs, by simp [hrid]⟩
    · simp only [Bool.or_eq_true, beq_iff_eq] at hv
      rcases hv with (hp | hr) | ht
      · exact Or.inl hp
      · exact Or.inr hr
      · exact absurd ht hterm

/-- C1 amended: the finish transition with finish status canceled leaves
every step row of the run in a terminal status; any other finish status
leaves the step rows untouched (so a retry-pending row survives). -/
theorem C1_finish_canceled_closes_steps (state : OrchState) (db : Db)
    (hvalid : ∀ s ∈ db.steps, validStepStatus s.status = true) :
    (state.finish_status = some "canceled" →
      ∀ s ∈ (TaskflowOrchestrator.finishNode state db).snd.steps,
        s.run_id = state.run_id → stepTerminalStatus s.status = true)
    ∧ (strOr state.finish_status "failed" ≠ "canceled" →
      (TaskflowOrchestrator.finishNode state db).snd.steps = db.steps) := by
  constructor
  · intro hcanc
    have hsteps : (TaskflowOrchestrator.finishNode state db).snd.steps
        = (TaskflowOrchestrator.markOpenStepsCanceled state db).snd.steps := by
      unfold TaskflowOrchestrator.finishNode
      rw [hcanc]
      rfl
    intro s hs hrid
    rw [hsteps] at hs
    exact markOpen_terminal state db hvalid s hs hrid
  · intro hne
    have hb : (strOr state.finish_status "failed" == "canceled") = false := by
      simpa using hne
    unfold TaskflowOrchestrator.finishNode
    simp only [hb]
    rfl

/-- Witness for C1's amended statement on a concrete canceled finish whose
store holds a retry-pending step. -/
theorem C1_finish_canceled_closes_steps_witness :
    stepTerminalStatus (c1CancelFinal.snd.steps.getLast (by decide)).status = true :=
  (C1_finish_canceled_closes_steps { c1State with finish_status := some "canceled" }
      c1Tick.snd (by decide)).1 rfl
    (c1CancelFinal.snd.steps.getLast (by decide))
    (List.getLast_mem _)
    (by decide)

end Taskflow
